import Mathlib

/-!
# Verification of the voice-chat-server relay fabric

Shallow embedding of the Go sources of `tyranno/voice-chat-server`:
`protocol.go` (frame codec and message types), `relay.go` (relay
orchestrator and chat-request validation), `api.go` (HTTP surface and the
SSE streaming adapter), `auth.go` (bridge registry, heartbeat supervision,
bridge message dispatch) and `notifications.go` (notification hub).

Conventions:
* Go strings are Lean `String`s; byte streams are `List Nat` with each
  element `< 256`.
* `time.Duration` values are nanosecond counts (`Int`), exactly as in Go.
* Channel-based streaming code is embedded as functions over the ordered
  list of events a goroutine's `select` loop consumes; Go channels are
  FIFO, so the list order is the channel delivery order.
* `http.Error(w, msg, code)` writes `msg` followed by a newline
  (`fmt.Fprintln`); the embedding keeps that trailing newline.
-/

namespace VoiceChat

/-- `ChatMessage` from protocol.go: one element of a chat request. -/
structure ChatMessage where
  role : String
  content : String
deriving Repr, DecidableEq

/-- `ChatRequest` from relay.go: decoded body of `POST /api/chat`.
An absent `conversationId` decodes to the Go zero value `""`. -/
structure ChatRequest where
  instanceId : String
  messages : List ChatMessage
  conversationId : String
deriving Repr, DecidableEq

/-- `ChatResponseMessage` from protocol.go: a `chat_response` frame. -/
structure ChatResponseMessage where
  requestId : String
  delta : String
  done : Bool
deriving Repr, DecidableEq

/-- `ChatErrorMessage` from protocol.go: a `chat_error` frame. -/
structure ChatErrorMessage where
  requestId : String
  error : String
deriving Repr, DecidableEq

/-- Modelled from the spec: the `FileResponseMessage` struct is not under
`src/` (only its uses in relay.go and api.go are); per §3 a
`file_response` frame carries `{requestId, url, filename, size}`. -/
structure FileResponseMessage where
  requestId : String
  url : String
  filename : String
  size : Int
deriving Repr, DecidableEq

/-! ## Chat request validation (relay.go, `ValidateChatRequest`) -/

/-- The indexed loop body of `ValidateChatRequest`: checks message `i`
and the ones after it, returning the first error, if any. -/
def validateMessagesFrom : Nat → List ChatMessage → Option String
  | _, [] => none
  | i, msg :: rest =>
    if msg.role = "" then
      some ("message[" ++ toString i ++ "]: role is required")
    else if msg.content = "" then
      some ("message[" ++ toString i ++ "]: content is required")
    else if msg.role ≠ "user" ∧ msg.role ≠ "assistant" ∧ msg.role ≠ "system" then
      some ("message[" ++ toString i ++ "]: invalid role '" ++ msg.role ++ "'")
    else
      validateMessagesFrom (i + 1) rest

/-- `ValidateChatRequest` from relay.go: returns `some err` exactly when
the Go function returns a non-nil error, with the same message. -/
def ValidateChatRequest (req : ChatRequest) : Option String :=
  if req.instanceId = "" then
    some "instanceId is required"
  else if req.messages.length = 0 then
    some "messages are required"
  else
    validateMessagesFrom 0 req.messages

/-- A message fails the per-message checks of `ValidateChatRequest`. -/
def badMessage (msg : ChatMessage) : Prop :=
  msg.role = "" ∨ msg.content = "" ∨
    (msg.role ≠ "user" ∧ msg.role ≠ "assistant" ∧ msg.role ≠ "system")

instance (msg : ChatMessage) : Decidable (badMessage msg) := by
  unfold badMessage; infer_instance

theorem validateMessagesFrom_isSome_iff (i : Nat) (msgs : List ChatMessage) :
    (validateMessagesFrom i msgs).isSome ↔ ∃ msg ∈ msgs, badMessage msg := by
  induction msgs generalizing i with
  | nil => simp [validateMessagesFrom]
  | cons msg rest ih =>
    by_cases hr : msg.role = ""
    · simp [validateMessagesFrom, hr, badMessage]
    · by_cases hc : msg.content = ""
      · simp [validateMessagesFrom, hr, hc, badMessage]
      · by_cases hbad : msg.role ≠ "user" ∧ msg.role ≠ "assistant" ∧ msg.role ≠ "system"
        · simp [validateMessagesFrom, hr, hc, hbad, badMessage]
        · simp only [validateMessagesFrom, if_neg hr, if_neg hc, if_neg hbad]
          rw [ih (i + 1)]
          simp only [List.mem_cons]
          constructor
          · rintro ⟨m, hm, hbm⟩; exact ⟨m, Or.inr hm, hbm⟩
          · rintro ⟨m, hm | hm, hbm⟩
            · subst hm
              exact absurd hbm (by simp [badMessage, hr, hc]; tauto)
            · exact ⟨m, hm, hbm⟩

theorem ValidateChatRequest_isSome_iff (req : ChatRequest) :
    (ValidateChatRequest req).isSome ↔
      req.instanceId = "" ∨ req.messages = [] ∨ ∃ msg ∈ req.messages, badMessage msg := by
  unfold ValidateChatRequest
  by_cases hi : req.instanceId = ""
  · simp [hi]
  · by_cases hm : req.messages.length = 0
    · simp [hi, hm, List.length_eq_zero.mp hm]
    · simp only [if_neg hi, if_neg hm]
      rw [validateMessagesFrom_isSome_iff]
      simp [hi, List.length_eq_zero.not.mp hm,
        (List.length_eq_zero.not.mp hm : req.messages ≠ [])]

/-! ## Frame codec (protocol.go, `ReadMessage`) -/

/-- 4-byte big-endian unsigned integer, as read by
`binary.Read(conn, binary.BigEndian, &length)`. -/
def beUint32 (b0 b1 b2 b3 : Nat) : Nat :=
  ((b0 * 256 + b1) * 256 + b2) * 256 + b3

/-- `ReadMessage` from protocol.go over a byte stream: read a 4-byte
big-endian length header, then exactly `length` bytes (`io.ReadFull`).
`none` models the error return (short header or short body); `some`
returns the frame body and the remaining stream. The Go code performs no
check on `length` beyond what `make([]byte, length)` and `io.ReadFull`
imply. -/
def ReadMessage (stream : List Nat) : Option (List Nat × List Nat) :=
  match stream with
  | b0 :: b1 :: b2 :: b3 :: rest =>
    let length := beUint32 b0 b1 b2 b3
    if rest.length < length then none
    else some (rest.take length, rest.drop length)
  | _ => none

/-! ## Relay orchestrator (relay.go, `RelayChat`)

`RelayChat` registers per-request channels, sends the `chat_request`
frame, then enters a `select` loop over the request's inbound channels
and a 2-minute timer. The embedding folds that loop over the ordered
list of events the `select` consumes. Sends on the relay's output
channels are modelled as emitted outputs (the SSE adapter is the
consumer; the inner timeout that fires only while a delta send blocks is
not reachable on an event list, which models an attached consumer). -/

/-- One event consumed by `RelayChat`'s `select` loop. `…Closed` events
model the corresponding inbound channel being closed (bridge
disconnect); `timerFired` models the 2-minute `timeout.C` case. -/
inductive RelayEvent where
  | response (msg : ChatResponseMessage)
  | responseClosed
  | chatError (msg : ChatErrorMessage)
  | errorChClosed
  | file (msg : FileResponseMessage)
  | fileChClosed
  | timerFired
deriving Repr, DecidableEq

/-- One value sent by `RelayChat` on its output channels
(`responseCh` / `errorCh` / `fileCh`). -/
inductive RelayOutput where
  | delta (s : String)
  | error (e : String)
  | file (f : FileResponseMessage)
deriving Repr, DecidableEq

/-- The overall relay deadline, from `time.NewTimer(2 * time.Minute)`
in relay.go (nanoseconds). -/
def relayTimeoutNs : Int := 2 * 60 * 1000000000

/-- Duration of the relay-side file drain spawned on `done`, from
`10*time.Second` in relay.go (nanoseconds). -/
def relayDrainNs : Int := 10 * 1000000000

/-- The `for { select { … } }` loop of `RelayChat`, folded over the
events it consumes, returning the outputs it sends in order. Mirrors
relay.go lines 58-101: a non-empty delta is forwarded before the `done`
check; `done=true` returns after (concurrently) spawning the file
drain; a closed response or error channel yields `bridge disconnected`;
a `chat_error` frame yields `chat error: …`; a file message is
forwarded with a non-blocking send; the timer yields
`timeout waiting for response`. -/
def RelayChat : List RelayEvent → List RelayOutput
  | [] => []
  | RelayEvent.response msg :: rest =>
    (if msg.delta ≠ "" then [RelayOutput.delta msg.delta] else []) ++
      (if msg.done then [] else RelayChat rest)
  | RelayEvent.responseClosed :: _ => [RelayOutput.error "bridge disconnected"]
  | RelayEvent.chatError msg :: _ => [RelayOutput.error ("chat error: " ++ msg.error)]
  | RelayEvent.errorChClosed :: _ => [RelayOutput.error "bridge disconnected"]
  | RelayEvent.file f :: rest => RelayOutput.file f :: RelayChat rest
  | RelayEvent.fileChClosed :: rest => RelayChat rest
  | RelayEvent.timerFired :: _ => [RelayOutput.error "timeout waiting for response"]

/-! ## SSE adapter (api.go, `handleChat` streaming phase) -/

/-- One SSE event written by `handleChat` after the headers. -/
inductive SseEvent where
  | delta (s : String)
  | error (e : String)
  | file (f : FileResponseMessage)
  | done
deriving Repr, DecidableEq

/-- The two streaming phases of `handleChat`, folded over the relay's
output sequence. Phase 1 forwards deltas and files and, on an error,
emits the error event and `[DONE]` and returns (outputs after an error
are never read; `RelayChat` never produces any). When the relay's
channels close, phase 2 drains buffered file events (already part of the
output list) and emits `[DONE]`. -/
def sseStream : List RelayOutput → List SseEvent
  | [] => [SseEvent.done]
  | RelayOutput.delta s :: rest => SseEvent.delta s :: sseStream rest
  | RelayOutput.file f :: rest => SseEvent.file f :: sseStream rest
  | RelayOutput.error e :: _ => [SseEvent.error e, SseEvent.done]

/-- The 30-second phase-2 drain timer of `handleChat`, from
`time.NewTimer(30 * time.Second)` in api.go (nanoseconds). -/
def sseDrainNs : Int := 30 * 1000000000

/-! ## JSON wire encoding (encoding/json, as used by api.go)

`json.Marshal` escapes `"` `\` and control characters, HTML-escapes
`<` `>` `&`, and sorts map keys alphabetically. -/

/-- Lower-case hex digit. -/
def hexDigit (n : Nat) : Char :=
  if n < 10 then Char.ofNat (48 + n) else Char.ofNat (87 + n)

/-- Escape one character the way Go's `json.Marshal` escapes string
contents (default HTML-escaping encoder). -/
def goJsonEscapeChar (c : Char) : String :=
  if c = '"' then "\\\""
  else if c = '\\' then "\\\\"
  else if c = '\n' then "\\n"
  else if c = '\r' then "\\r"
  else if c = '\t' then "\\t"
  else if c = '<' then "\\u003c"
  else if c = '>' then "\\u003e"
  else if c = '&' then "\\u0026"
  else if c.toNat < 32 then
    String.mk ['\\', 'u', '0', '0', hexDigit (c.toNat / 16), hexDigit (c.toNat % 16)]
  else String.singleton c

/-- Go `json.Marshal` of a string value. -/
def goJsonString (s : String) : String :=
  "\"" ++ String.join (s.toList.map goJsonEscapeChar) ++ "\""

/-- The exact bytes `handleChat` writes for one SSE event:
`fmt.Fprintf(w, "data: %s\n\n", dataBytes)` around the marshalled
payload maps (map keys in Go's sorted order). -/
def renderSse : SseEvent → String
  | SseEvent.delta s => "data: \x7b\"delta\":" ++ goJsonString s ++ "\x7d\n\n"
  | SseEvent.error e => "data: \x7b\"error\":" ++ goJsonString e ++ "\x7d\n\n"
  | SseEvent.file f =>
      "data: \x7b\"file\":\x7b\"filename\":" ++ goJsonString f.filename ++
        ",\"size\":" ++ toString f.size ++ ",\"url\":" ++ goJsonString f.url ++
        "\x7d\x7d\n\n"
  | SseEvent.done => "data: [DONE]\n\n"

/-! ## The chat endpoint (api.go, `handleChat`) -/

/-- A bridge-facing action performed on behalf of a chat request
(`RegisterRequest` on the session, `SendChatRequest` on the manager). -/
inductive BridgeAction where
  | registerRequest (requestId : String)
  | sendChatRequest (bridgeId : String) (requestId : String)
deriving Repr, DecidableEq

/-- One run of `handleChat` (method already POST). `pre` is the
`http.Error` status/body when the handler returns before the SSE
headers (`http.Error` writes the message plus a newline); once the SSE
headers are set, everything the client receives is in `sse` and `pre`
is `none`. `bridgeActions` lists the bridge-facing calls made by the
spawned `RelayChat` for this request. -/
structure ChatHandlerRun where
  pre : Option (Nat × String)
  sse : List SseEvent
  bridgeActions : List BridgeAction
deriving Repr, DecidableEq

/-- `handleChat` from api.go: decode (`none` = `json.Decoder` error),
validate, resolve the bridge, then stream. `bridges` is the set of
registered instance ids (`BridgeManager.GetBridge` is a map lookup);
`events` is what the spawned relay's `select` loop consumes. On the
streaming path `RelayChat` re-resolves the same bridge, registers the
request and sends the `chat_request` frame (relay.go lines 35-50). -/
def handleChat (body : Option ChatRequest) (bridges : List String)
    (events : List RelayEvent) (requestId : String) : ChatHandlerRun :=
  match body with
  | none => ⟨some (400, "Invalid JSON" ++ "\n"), [], []⟩
  | some req =>
    match ValidateChatRequest req with
    | some err => ⟨some (400, err ++ "\n"), [], []⟩
    | none =>
      if bridges.contains req.instanceId then
        ⟨none, sseStream (RelayChat events),
          [BridgeAction.registerRequest requestId,
           BridgeAction.sendChatRequest req.instanceId requestId]⟩
      else
        ⟨some (404, "Instance not found" ++ "\n"), [], []⟩

/-! ## Per-session request registry and the relay's return path

The request-registry implementation (`RequestChannels`,
`RegisterRequest`, `UnregisterRequest` and the inbound dispatch table)
is not under `src/`; only its callers in relay.go are. -/

/-- Modelled from the spec: §4.4 — `register(requestId)` atomically
inserts a fresh channel triple for the id. The registry is the set of
registered request ids. -/
def RegisterRequest (reg : List String) (requestId : String) : List String :=
  requestId :: reg

/-- Modelled from the spec: §4.4 — `unregister(requestId)` removes the
id and closes all three of its channels. -/
def UnregisterRequest (reg : List String) (requestId : String) : List String :=
  reg.filter (fun r => r ≠ requestId)

/-- Modelled from the spec: §3 — the session's inbound dispatcher routes
each frame to the channel set identified by `requestId`; frames with an
unknown `requestId` are dropped with a log entry. Returns whether the
frame is forwarded. -/
def dispatchByRequestId (reg : List String) (requestId : String) : Bool :=
  reg.contains requestId

/-- An action of the `RelayChat` goroutine visible to the rest of the
system. -/
inductive RelayAction where
  | spawnDrain (ns : Int)
  | unregister (requestId : String)
  | closeFileOut
  | closeErrorOut
  | closeResponseOut
deriving Repr, DecidableEq

/-- The actions `RelayChat` performs when it returns after dispatching
`done=true` (relay.go lines 73-78 and its `defer`s, which run in LIFO
order): it spawns `drainFileEvents(…, 10*time.Second)` with `go` — which
does not wait — and immediately runs the deferred
`bridge.UnregisterRequest(requestID)` and the deferred closes of
`fileCh`, `errorCh`, `responseCh`. No blocking operation separates the
spawn from the unregister. -/
def relayReturnActions (requestId : String) : List RelayAction :=
  [RelayAction.spawnDrain relayDrainNs,
   RelayAction.unregister requestId,
   RelayAction.closeFileOut,
   RelayAction.closeErrorOut,
   RelayAction.closeResponseOut]

/-- Execute the registry-visible effect of the relay's return-path
actions on the request registry. -/
def applyRelayActions (reg : List String) : List RelayAction → List String
  | [] => reg
  | RelayAction.unregister rid :: rest => applyRelayActions (UnregisterRequest reg rid) rest
  | _ :: rest => applyRelayActions reg rest

/-! ## Bridge registry and heartbeats (auth.go) -/

/-- `BridgeConnection` from auth.go (session fields; the socket is
modelled by `connClosed`, the effect of `Conn.Close()`). -/
structure BridgeConn where
  id : String
  name : String
  status : String
  connectedAtNs : Int
  lastPingNs : Int
  connClosed : Bool
deriving Repr, DecidableEq

/-- The heartbeat expiry from auth.go `checkHeartbeats`
(`timeout := 60 * time.Second`, nanoseconds). -/
def heartbeatTimeoutNs : Int := 60 * 1000000000

/-- `checkHeartbeats` from auth.go: for every session with
`now.Sub(LastPing) > timeout`, set `Status = "offline"`, close its
socket and delete it from the registry; leave the rest untouched.
Returns (remaining registry, removed sessions as processed). -/
def checkHeartbeats (now : Int) : List BridgeConn → List BridgeConn × List BridgeConn
  | [] => ([], [])
  | b :: rest =>
    let prev := checkHeartbeats now rest
    if now - b.lastPingNs > heartbeatTimeoutNs then
      (prev.1, { b with status := "offline", connClosed := true } :: prev.2)
    else
      (b :: prev.1, prev.2)

/-- A frame arriving on a bridge socket, as dispatched by
`bridgeMessageHandler` in auth.go. -/
inductive BridgeFrame where
  | heartbeat
  | chatResponse (m : ChatResponseMessage)
  | chatError (m : ChatErrorMessage)
  | unknown (t : String)
deriving Repr, DecidableEq

/-- The effect of one dispatched frame on the session record
(auth.go `bridgeMessageHandler` switch): `heartbeat` sets
`LastPing = now`; `chat_response` and `chat_error` are forwarded into
the session's channels and unknown types are logged — none of them
touch the session's fields. -/
def bridgeMessageStep (now : Int) (b : BridgeConn) : BridgeFrame → BridgeConn
  | BridgeFrame.heartbeat => { b with lastPingNs := now }
  | BridgeFrame.chatResponse _ => b
  | BridgeFrame.chatError _ => b
  | BridgeFrame.unknown _ => b

/-! ## Notification hub (notifications.go) and the HTTP route table -/

/-- A connected notification WebSocket client (`NotificationConn`);
only the identity matters for delivery. -/
structure NotificationConn where
  instanceID : String
deriving Repr, DecidableEq

/-- The recipients of `SendTo(instanceID, …)` (notifications.go line
84): every client with `client.instanceID == instanceID`, or every
client when `instanceID == ""`. -/
def sendToRecipients (clients : List NotificationConn) (instanceID : String) :
    List NotificationConn :=
  clients.filter (fun c => c.instanceID = instanceID || instanceID = "")

/-- Decoded body of the REST notification endpoint
(`HandleSendNotification`). -/
structure NotifyRequest where
  instanceId : String
  notifType : String
  title : String
  message : String
deriving Repr, DecidableEq

/-- One run of `HandleSendNotification`: HTTP status, response body
(`json.Encoder.Encode` of the map, sorted keys, trailing newline), the
number of WebSocket deliveries attempted by `SendTo`, and the number of
calls into the FCM push service — the handler's body contains no call
into `FcmManager`, so that count is zero on every path. -/
structure SendNotificationRun where
  status : Nat
  body : String
  wsDeliveries : Nat
  fcmInvocations : Nat
deriving Repr, DecidableEq

/-- `HandleSendNotification` from notifications.go lines 179-206
(method already POST): decode, default the type to `"info"`, `SendTo`,
then respond `{"clients": len(clients), "status": "ok"}`. -/
def HandleSendNotification (clients : List NotificationConn)
    (body : Option NotifyRequest) : SendNotificationRun :=
  match body with
  | none => ⟨400, "Invalid JSON" ++ "\n", 0, 0⟩
  | some req =>
    ⟨200,
     "\x7b\"clients\":" ++ toString clients.length ++ ",\"status\":\"ok\"\x7d\n",
     (sendToRecipients clients req.instanceId).length,
     0⟩

/-- The patterns registered on the `http.ServeMux` in
`StartHTTPServer` (api.go lines 50-75). -/
def apiRoutes : List String :=
  ["/health", "/api/instances", "/api/chat", "/api/apk/latest",
   "/api/apk/download", "/api/apk/upload", "/api/tts", "/api/stt/stream",
   "/api/files/upload", "/api/files/list", "/api/files/",
   "/api/conversations", "/api/conversations/", "/api/ws/notifications",
   "/api/notifications/send", "/api/youtube/search", "/api/fcm/register",
   "/api/fcm/send"]

/-- `http.ServeMux` path matching: a pattern ending in `/` matches the
subtree, any other pattern matches exactly; a path matching no pattern
gets the mux's 404 response. -/
def muxHasHandler (path : String) : Bool :=
  apiRoutes.any (fun p =>
    if p.data.getLast? = some '/' then p.data.isPrefixOf path.data
    else p = path)

/-! ## Helper lemmas -/

/-- The delta values in a list of SSE events, in order. -/
def sseDeltaValues : List SseEvent → List String
  | [] => []
  | SseEvent.delta s :: rest => s :: sseDeltaValues rest
  | SseEvent.error _ :: rest => sseDeltaValues rest
  | SseEvent.file _ :: rest => sseDeltaValues rest
  | SseEvent.done :: rest => sseDeltaValues rest

/-- The delta values in a list of relay outputs, in order. -/
def outputDeltas : List RelayOutput → List String
  | [] => []
  | RelayOutput.delta s :: rest => s :: outputDeltas rest
  | RelayOutput.error _ :: rest => outputDeltas rest
  | RelayOutput.file _ :: rest => outputDeltas rest

theorem outputDeltas_append (a b : List RelayOutput) :
    outputDeltas (a ++ b) = outputDeltas a ++ outputDeltas b := by
  induction a with
  | nil => rfl
  | cons o rest ih => cases o <;> simp [outputDeltas, ih]

/-- The frames of a single request up to and including the first one
with `done = true`. -/
def framesUpToDone : List ChatResponseMessage → List ChatResponseMessage
  | [] => []
  | f :: rest => if f.done then [f] else f :: framesUpToDone rest

theorem relayChat_responses_no_error (frames : List ChatResponseMessage) (e : String) :
    RelayOutput.error e ∉ RelayChat (frames.map RelayEvent.response) := by
  induction frames with
  | nil => simp [RelayChat]
  | cons f rest ih =>
    simp only [List.map_cons, RelayChat, List.mem_append]
    rintro (h | h)
    · by_cases hd : f.delta ≠ "" <;> simp [hd] at h
    · by_cases hdone : f.done <;> simp [hdone] at h
      exact ih h

theorem sseDeltaValues_sseStream (outs : List RelayOutput)
    (h : ∀ e, RelayOutput.error e ∉ outs) :
    sseDeltaValues (sseStream outs) = outputDeltas outs := by
  induction outs with
  | nil => simp [sseStream, sseDeltaValues, outputDeltas]
  | cons o rest ih =>
    have hrest : ∀ e, RelayOutput.error e ∉ rest := by
      intro e he
      exact h e (List.mem_cons_of_mem _ he)
    match o with
    | RelayOutput.delta s =>
      simp only [sseStream, sseDeltaValues, outputDeltas]
      exact congrArg (s :: ·) (ih hrest)
    | RelayOutput.file f =>
      simp only [sseStream, sseDeltaValues, outputDeltas]
      exact ih hrest
    | RelayOutput.error e =>
      exact absurd (List.mem_cons_self _ _) (h e)

theorem outputDeltas_relayChat (frames : List ChatResponseMessage) :
    outputDeltas (RelayChat (frames.map RelayEvent.response)) =
      ((framesUpToDone frames).map (fun f => f.delta)).filter
        (fun s => decide (s ≠ "")) := by
  induction frames with
  | nil => simp [RelayChat, framesUpToDone, outputDeltas]
  | cons f rest ih =>
    simp only [List.map_cons, RelayChat, framesUpToDone, outputDeltas_append]
    by_cases hdone : f.done
    · by_cases hd : f.delta = "" <;>
        simp [hdone, hd, outputDeltas]
    · by_cases hd : f.delta = "" <;>
        simp [hdone, hd, outputDeltas, ih]

/-! ## Claim theorems -/

/-- C1 (counterexample): the claim predicts that the deltas emitted over
SSE are the delta fields of the frames strictly before the `done=true`
frame; on the frames `[{delta:"", done:false}, {delta:"hi", done:true}]`
the code emits `["hi"]` (it skips the empty delta and forwards the delta
carried by the `done` frame), while the claim predicts `[""]`. -/
theorem c1_deltas_counterexample :
    sseDeltaValues (sseStream (RelayChat
        ([⟨"r1", "", false⟩, ⟨"r1", "hi", true⟩].map RelayEvent.response))) ≠
      ([(⟨"r1", "", false⟩ : ChatResponseMessage), ⟨"r1", "hi", true⟩].takeWhile
          (fun f => !f.done)).map (fun f => f.delta) := by
  decide

/-- C1 (amended): for a single request whose `chat_response` frames are
delivered in order to the relay, the sequence of delta values emitted to
the client over SSE equals the sequence of non-empty `delta` fields of
the frames up to and **including** the frame with `done=true` (frames
after the first `done=true` contribute nothing; empty deltas are never
emitted). -/
theorem c1_deltas_preserve_order (frames : List ChatResponseMessage) :
    sseDeltaValues (sseStream (RelayChat (frames.map RelayEvent.response))) =
      ((framesUpToDone frames).map (fun f => f.delta)).filter
        (fun s => decide (s ≠ "")) :=
  (sseDeltaValues_sseStream _ (relayChat_responses_no_error frames)).trans
    (outputDeltas_relayChat frames)

/-- C2: a relay whose `select` loop sees no inbound frame before the
2-minute timer fires terminates with exactly the error
`timeout waiting for response` on its error channel, and the SSE adapter
then writes `data: {"error":"timeout waiting for response"}` followed by
`data: [DONE]`; the timer is `2 * time.Minute`. -/
theorem c2_timeout (rest : List RelayEvent) :
    RelayChat (RelayEvent.timerFired :: rest) =
      [RelayOutput.error "timeout waiting for response"] ∧
    (sseStream (RelayChat (RelayEvent.timerFired :: rest))).map renderSse =
      ["data: \x7b\"error\":\"timeout waiting for response\"\x7d\n\n",
       "data: [DONE]\n\n"] ∧
    relayTimeoutNs = 120 * 1000000000 := by
  have h1 : RelayChat (RelayEvent.timerFired :: rest) =
      [RelayOutput.error "timeout waiting for response"] := rfl
  refine ⟨h1, ?_, by decide⟩
  rw [h1]
  decide

/-- C3 (code bug): after `done=true` is dispatched, `RelayChat` spawns
the 10-second `drainFileEvents` goroutine with `go` and returns at once,
so its deferred `UnregisterRequest` and the deferred `close(fileCh)`
execute immediately, without waiting for the drain. The request registry
therefore no longer contains the requestId when a `file_response`
arrives 200 ms later — the dispatcher drops it — and the client's SSE
stream for an S2-style run carries no file event at all: it is the delta
events followed directly by `[DONE]`. The claim (late file events within
the drain window are forwarded, and unregistration happens only after
the drain completes) describes the evident intent of the drain code, not
its behaviour. -/
theorem c3_drain_dead_on_arrival :
    applyRelayActions (RegisterRequest [] "r1") (relayReturnActions "r1") = [] ∧
    dispatchByRequestId
      (applyRelayActions (RegisterRequest [] "r1") (relayReturnActions "r1"))
      "r1" = false ∧
    sseStream (RelayChat [RelayEvent.response ⟨"r1", "he", false⟩,
        RelayEvent.response ⟨"r1", "", true⟩]) =
      [SseEvent.delta "he", SseEvent.done] := by
  decide

theorem string_append_assoc (a b c : String) : a ++ b ++ c = a ++ (b ++ c) := by
  apply congrArg String.mk
  show (a ++ b ++ c).data = (a ++ (b ++ c)).data
  simp [String.data_append, List.append_assoc]

theorem sseStream_error_then_done (outs : List RelayOutput) (i : Nat) (e : String)
    (h : (sseStream outs)[i]? = some (SseEvent.error e)) :
    (sseStream outs)[i + 1]? = some SseEvent.done ∧
      (sseStream outs).length = i + 2 := by
  induction outs generalizing i with
  | nil =>
    exfalso
    match i, h with
    | 0, h => exact SseEvent.noConfusion (Option.some.inj h)
  | cons o rest ih =>
    match o with
    | RelayOutput.delta s =>
      match i, h with
      | 0, h => simp [sseStream] at h
      | i + 1, h =>
        have := ih i (by simpa [sseStream] using h)
        simpa [sseStream] using this
    | RelayOutput.file f =>
      match i, h with
      | 0, h => simp [sseStream] at h
      | i + 1, h =>
        have := ih i (by simpa [sseStream] using h)
        simpa [sseStream] using this
    | RelayOutput.error e' =>
      match i, h with
      | 0, _ => simp [sseStream]
      | 1, h => simp [sseStream] at h
      | i + 2, h => simp [sseStream] at h

theorem renderSse_data_prefix (ev : SseEvent) :
    ∃ payload, renderSse ev = "data: " ++ payload := by
  match ev with
  | SseEvent.delta s =>
    refine ⟨"\x7b\"delta\":" ++ (goJsonString s ++ "\x7d\n\n"), ?_⟩
    show "data: \x7b\"delta\":" ++ goJsonString s ++ "\x7d\n\n" = _
    rw [show ("data: \x7b\"delta\":" : String) = "data: " ++ "\x7b\"delta\":" from rfl,
      string_append_assoc, string_append_assoc]
  | SseEvent.error e =>
    refine ⟨"\x7b\"error\":" ++ (goJsonString e ++ "\x7d\n\n"), ?_⟩
    show "data: \x7b\"error\":" ++ goJsonString e ++ "\x7d\n\n" = _
    rw [show ("data: \x7b\"error\":" : String) = "data: " ++ "\x7b\"error\":" from rfl,
      string_append_assoc, string_append_assoc]
  | SseEvent.file f =>
    refine ⟨"\x7b\"file\":\x7b\"filename\":" ++ (goJsonString f.filename ++
      (",\"size\":" ++ (toString f.size ++ (",\"url\":" ++
        (goJsonString f.url ++ "\x7d\x7d\n\n"))))), ?_⟩
    show "data: \x7b\"file\":\x7b\"filename\":" ++ goJsonString f.filename ++
        ",\"size\":" ++ toString f.size ++ ",\"url\":" ++ goJsonString f.url ++
        "\x7d\x7d\n\n" = _
    rw [show ("data: \x7b\"file\":\x7b\"filename\":" : String) =
        "data: " ++ "\x7b\"file\":\x7b\"filename\":" from rfl]
    rw [string_append_assoc, string_append_assoc, string_append_assoc,
      string_append_assoc, string_append_assoc, string_append_assoc]
  | SseEvent.done => exact ⟨"[DONE]\n\n", rfl⟩

/-- C4: every error produced inside the relay is surfaced on the SSE
channel — once streaming has begun the handler has no HTTP-status
output (`pre = none`); an error event in the SSE stream is immediately
followed by `[DONE]`, which terminates the stream; every SSE event is
written as a `data: ` line; and in the S5 scenario (bridge socket drops
after `delta="he"`) the client receives exactly
`data: {"delta":"he"}`, `data: {"error":"bridge disconnected"}`,
`data: [DONE]`. -/
theorem c4_errors_surfaced_on_sse (req : ChatRequest) (bridges : List String)
    (events : List RelayEvent) (rid : String) (i : Nat) (e : String)
    (hv : ValidateChatRequest req = none)
    (hb : bridges.contains req.instanceId = true)
    (he : (sseStream (RelayChat events))[i]? = some (SseEvent.error e)) :
    (handleChat (some req) bridges events rid).pre = none ∧
    (handleChat (some req) bridges events rid).sse = sseStream (RelayChat events) ∧
    (sseStream (RelayChat events))[i + 1]? = some SseEvent.done ∧
    (sseStream (RelayChat events)).length = i + 2 ∧
    (∃ payload, renderSse (SseEvent.error e) = "data: " ++ payload) ∧
    (sseStream (RelayChat [RelayEvent.response ⟨"r1", "he", false⟩,
        RelayEvent.responseClosed])).map renderSse =
      ["data: \x7b\"delta\":\"he\"\x7d\n\n",
       "data: \x7b\"error\":\"bridge disconnected\"\x7d\n\n",
       "data: [DONE]\n\n"] := by
  have hmem : req.instanceId ∈ bridges := by simpa using hb
  refine ⟨?_, ?_, (sseStream_error_then_done _ i e he).1,
    (sseStream_error_then_done _ i e he).2, renderSse_data_prefix _, by decide⟩
  · simp [handleChat, hv, hmem]
  · simp [handleChat, hv, hmem]

/-- Witness for C4 at a concrete run: a registered bridge `b1`, a valid
one-message request, and a bridge disconnect as the first relay event. -/
theorem c4_errors_surfaced_on_sse_witness :
    (handleChat (some ⟨"b1", [⟨"user", "hi"⟩], ""⟩) ["b1"]
        [RelayEvent.responseClosed] "req_1").pre = none ∧
    (handleChat (some ⟨"b1", [⟨"user", "hi"⟩], ""⟩) ["b1"]
        [RelayEvent.responseClosed] "req_1").sse =
      sseStream (RelayChat [RelayEvent.responseClosed]) ∧
    (sseStream (RelayChat [RelayEvent.responseClosed]))[0 + 1]? =
      some SseEvent.done ∧
    (sseStream (RelayChat [RelayEvent.responseClosed])).length = 0 + 2 ∧
    (∃ payload, renderSse (SseEvent.error "bridge disconnected") =
      "data: " ++ payload) ∧
    (sseStream (RelayChat [RelayEvent.response ⟨"r1", "he", false⟩,
        RelayEvent.responseClosed])).map renderSse =
      ["data: \x7b\"delta\":\"he\"\x7d\n\n",
       "data: \x7b\"error\":\"bridge disconnected\"\x7d\n\n",
       "data: [DONE]\n\n"] :=
  c4_errors_surfaced_on_sse ⟨"b1", [⟨"user", "hi"⟩], ""⟩ ["b1"]
    [RelayEvent.responseClosed] "req_1" 0 "bridge disconnected"
    rfl rfl rfl

theorem readMessage_full_replicate (n b0 b1 b2 b3 : Nat)
    (h : beUint32 b0 b1 b2 b3 = n) :
    ReadMessage (b0 :: b1 :: b2 :: b3 :: List.replicate n 0) =
      some (List.replicate n 0, []) := by
  show (if (List.replicate n (0 : Nat)).length < beUint32 b0 b1 b2 b3 then none
    else some ((List.replicate n (0 : Nat)).take (beUint32 b0 b1 b2 b3),
      (List.replicate n (0 : Nat)).drop (beUint32 b0 b1 b2 b3))) = _
  rw [h]
  simp [List.take_replicate, List.drop_replicate]

/-- C5 (counterexample): the claim says `ReadMessage` rejects any frame
whose declared length exceeds a fixed bound such as 4 MiB; the code has
no such bound — a declared length of 4 MiB + 1 bytes with a full body is
accepted. -/
theorem c5_no_length_bound_counterexample :
    ReadMessage (0 :: 64 :: 0 :: 1 :: List.replicate 4194305 0) =
      some (List.replicate 4194305 0, []) ∧
    beUint32 0 64 0 1 = 4194305 ∧ 4 * 1024 * 1024 < 4194305 :=
  ⟨readMessage_full_replicate 4194305 0 64 0 1 (by norm_num [beUint32]),
   by norm_num [beUint32], by norm_num⟩

/-- C5 (amended): `ReadMessage` fails on a short read — a header of
fewer than 4 bytes, or a body shorter than the declared 4-byte
big-endian length — and otherwise returns exactly the declared number of
body bytes; it enforces no maximum on the declared length. -/
theorem c5_framing (b0 b1 b2 b3 : Nat) (rest s : List Nat) :
    (s.length < 4 → ReadMessage s = none) ∧
    (rest.length < beUint32 b0 b1 b2 b3 →
      ReadMessage (b0 :: b1 :: b2 :: b3 :: rest) = none) ∧
    (beUint32 b0 b1 b2 b3 ≤ rest.length →
      ∃ body remaining,
        ReadMessage (b0 :: b1 :: b2 :: b3 :: rest) = some (body, remaining) ∧
        body.length = beUint32 b0 b1 b2 b3 ∧ body ++ remaining = rest) := by
  refine ⟨?_, ?_, ?_⟩
  · intro hs
    match s, hs with
    | [], _ => rfl
    | [_], _ => rfl
    | [_, _], _ => rfl
    | [_, _, _], _ => rfl
    | _ :: _ :: _ :: _ :: _, hs => simp at hs; omega
  · intro hshort
    simp [ReadMessage, hshort]

  · intro hfull
    refine ⟨rest.take (beUint32 b0 b1 b2 b3), rest.drop (beUint32 b0 b1 b2 b3),
      ?_, ?_, List.take_append_drop _ _⟩
    · simp [ReadMessage, Nat.not_lt.mpr hfull]
    · simp [List.length_take]
      omega

/-- Witness for C5 at concrete streams: a 2-byte stream and a declared
length 2 with a 1-byte body both fail; declared length 1 with body `[7]`
succeeds with that body. -/
theorem c5_framing_witness :
    ReadMessage [0, 0] = none ∧
    ReadMessage [0, 0, 0, 2, 7] = none ∧
    (∃ body remaining,
      ReadMessage [0, 0, 0, 1, 7] = some (body, remaining) ∧
      body.length = beUint32 0 0 0 1 ∧ body ++ remaining = [7]) :=
  ⟨(c5_framing 0 0 0 2 [7] [0, 0]).1 (by decide),
   (c5_framing 0 0 0 2 [7] [0, 0]).2.1 (by decide),
   (c5_framing 0 0 0 1 [7] [0, 0]).2.2 (by decide)⟩

/-- C6 (counterexample): the claim demands HTTP 400 with body exactly
`message[0]: invalid role 'tool'`; the status is 400 but `http.Error`
writes the message through `fmt.Fprintln`, so the body carries a
trailing newline and is not exactly that string. -/
theorem c6_exact_body_counterexample :
    (handleChat (some ⟨"i1", [⟨"tool", "hi"⟩], ""⟩) ["i1"] [] "req_1").pre =
      some (400, "message[0]: invalid role 'tool'\n") ∧
    ("message[0]: invalid role 'tool'\n" : String) ≠
      "message[0]: invalid role 'tool'" :=
  ⟨rfl, by decide⟩

/-- C6 (amended): `ValidateChatRequest` returns an error iff the request
has an empty instanceId, an empty message list, or some message with an
empty role, empty content, or a role outside user/assistant/system; a
first message with role `tool` yields HTTP 400 whose body is
`message[0]: invalid role 'tool'` followed by the newline `http.Error`
appends. -/
theorem c6_validation (req : ChatRequest) (bridges : List String)
    (events : List RelayEvent) (rid : String) :
    ((ValidateChatRequest req).isSome ↔
      req.instanceId = "" ∨ req.messages = [] ∨
        ∃ msg ∈ req.messages, msg.role = "" ∨ msg.content = "" ∨
          (msg.role ≠ "user" ∧ msg.role ≠ "assistant" ∧ msg.role ≠ "system")) ∧
    (handleChat (some ⟨"i1", [⟨"tool", "hi"⟩], ""⟩) bridges events rid).pre =
      some (400, "message[0]: invalid role 'tool'" ++ "\n") := by
  constructor
  · simpa [badMessage] using ValidateChatRequest_isSome_iff req
  · rfl

/-- C7: a valid chat request whose instanceId matches no registered
bridge gets HTTP 404 with the `Instance not found` message (plus the
newline `http.Error` appends) before the handler sets any SSE header or
writes any SSE event — the run has no streaming output and no
bridge-facing action at all. -/
theorem c7_unknown_instance (req : ChatRequest) (bridges : List String)
    (events : List RelayEvent) (rid : String)
    (hv : ValidateChatRequest req = none)
    (hb : bridges.contains req.instanceId = false) :
    handleChat (some req) bridges events rid =
      ⟨some (404, "Instance not found" ++ "\n"), [], []⟩ := by
  have hnb : req.instanceId ∉ bridges := by simpa using hb
  simp [handleChat, hv, hnb]

/-- Witness for C7: `instanceId = "nope"` against an empty registry. -/
theorem c7_unknown_instance_witness :
    handleChat (some ⟨"nope", [⟨"user", "hi"⟩], ""⟩) [] [] "req_1" =
      ⟨some (404, "Instance not found" ++ "\n"), [], []⟩ :=
  c7_unknown_instance ⟨"nope", [⟨"user", "hi"⟩], ""⟩ [] [] "req_1" rfl rfl

theorem checkHeartbeats_kept (now : Int) (conns : List BridgeConn) :
    (checkHeartbeats now conns).1 =
      conns.filter (fun c => !decide (now - c.lastPingNs > heartbeatTimeoutNs)) := by
  induction conns with
  | nil => rfl
  | cons c rest ih =>
    by_cases h : now - c.lastPingNs > heartbeatTimeoutNs <;>
      simp [checkHeartbeats, h, ih]

theorem checkHeartbeats_removed (now : Int) (conns : List BridgeConn) :
    (checkHeartbeats now conns).2 =
      (conns.filter (fun c => decide (now - c.lastPingNs > heartbeatTimeoutNs))).map
        (fun c => { c with status := "offline", connClosed := true }) := by
  induction conns with
  | nil => rfl
  | cons c rest ih =>
    by_cases h : now - c.lastPingNs > heartbeatTimeoutNs <;>
      simp [checkHeartbeats, h, ih]

/-- C8: one run of `checkHeartbeats` removes exactly the sessions with
`now − lastPing > 60 s` — each removed session is marked offline and its
socket closed — and keeps every other session's entry untouched; a
`heartbeat` frame sets the session's `LastPing` to the current time, and
the expiry constant is 60 seconds. -/
theorem c8_heartbeat_expiry (now : Int) (conns : List BridgeConn) (b : BridgeConn) :
    (checkHeartbeats now conns).1 =
      conns.filter (fun c => !decide (now - c.lastPingNs > heartbeatTimeoutNs)) ∧
    (checkHeartbeats now conns).2 =
      (conns.filter (fun c => decide (now - c.lastPingNs > heartbeatTimeoutNs))).map
        (fun c => { c with status := "offline", connClosed := true }) ∧
    bridgeMessageStep now b BridgeFrame.heartbeat = { b with lastPingNs := now } ∧
    heartbeatTimeoutNs = 60 * 1000000000 :=
  ⟨checkHeartbeats_kept now conns, checkHeartbeats_removed now conns, rfl, rfl⟩

/-- C9 (counterexample): there is no `/api/notify` route on the server's
mux, and the REST notification endpoint (`HandleSendNotification`,
served at `/api/notifications/send`) invokes the push service zero
times — not exactly once — on a request with zero matching WebSocket
clients; its response body is `{"clients":…,"status":"ok"}`, not
`{sent, fcmSent}`. -/
theorem c9_push_fallback_counterexample :
    muxHasHandler "/api/notify" = false ∧
    (HandleSendNotification [] (some ⟨"X", "", "T", "B"⟩)).fcmInvocations = 0 ∧
    (HandleSendNotification [] (some ⟨"X", "", "T", "B"⟩)).fcmInvocations ≠ 1 ∧
    (HandleSendNotification [] (some ⟨"X", "", "T", "B"⟩)).body =
      "\x7b\"clients\":0,\"status\":\"ok\"\x7d\n" := by
  decide

/-- C9 (amended): the REST notify endpoint is
`POST /api/notifications/send` (no `/api/notify` route exists); it never
invokes the push service, regardless of how many WebSocket clients
match; it attempts a WebSocket delivery to exactly the clients whose
`instanceID` equals the request's `instanceId` (all clients when that id
is empty); and its response body is `{"clients":<connected client
count>,"status":"ok"}`. Push messages are sent only through the separate
`/api/fcm/send` endpoint. -/
theorem c9_notify_no_fallback (clients : List NotificationConn)
    (body : Option NotifyRequest) (req : NotifyRequest) :
    (HandleSendNotification clients body).fcmInvocations = 0 ∧
    (HandleSendNotification clients (some req)).wsDeliveries =
      clients.countP (fun c => c.instanceID = req.instanceId || req.instanceId = "") ∧
    (HandleSendNotification clients (some req)).body =
      "\x7b\"clients\":" ++ toString clients.length ++ ",\"status\":\"ok\"\x7d\n" ∧
    muxHasHandler "/api/notifications/send" = true ∧
    muxHasHandler "/api/notify" = false := by
  refine ⟨?_, ?_, rfl, by decide, by decide⟩
  · cases body <;> rfl
  · show (sendToRecipients clients req.instanceId).length = _
    simp [sendToRecipients, List.countP_eq_length_filter]

/-- C10: a chat request rejected before streaming begins — invalid JSON,
validation failure, or an instanceId matching no registered bridge —
causes no bridge-facing action at all: no request channels are
registered, no `chat_request` frame is sent, and no SSE event is
emitted. -/
theorem c10_rejected_request_no_bridge_actions (body : Option ChatRequest)
    (bridges : List String) (events : List RelayEvent) (rid : String)
    (h : body = none ∨ ∃ req, body = some req ∧
        ((ValidateChatRequest req).isSome ∨
          bridges.contains req.instanceId = false)) :
    (handleChat body bridges events rid).bridgeActions = [] ∧
    (handleChat body bridges events rid).sse = [] := by
  rcases h with h | ⟨req, hbody, hrej⟩
  · subst h; exact ⟨rfl, rfl⟩
  · subst hbody
    rcases hrej with hv | hnb
    · obtain ⟨err, herr⟩ := Option.isSome_iff_exists.mp hv
      simp [handleChat, herr]
    · have hnb' : req.instanceId ∉ bridges := by simpa using hnb
      cases hval : ValidateChatRequest req with
      | some err => simp [handleChat, hval]
      | none => simp [handleChat, hval, hnb']

/-- Witness for C10: the unknown-instance rejection of `S3` leaves the
bridge-facing state untouched. -/
theorem c10_rejected_request_no_bridge_actions_witness :
    (handleChat (some ⟨"nope", [⟨"user", "hi"⟩], ""⟩) [] [] "req_1").bridgeActions
      = [] ∧
    (handleChat (some ⟨"nope", [⟨"user", "hi"⟩], ""⟩) [] [] "req_1").sse = [] :=
  c10_rejected_request_no_bridge_actions
    (some ⟨"nope", [⟨"user", "hi"⟩], ""⟩) [] [] "req_1"
    (Or.inr ⟨_, rfl, Or.inr rfl⟩)

end VoiceChat
